import Mathlib

set_option maxRecDepth 8000

/-! Shallow embedding of the BabyMonitoringSystem repository (BabySide.ino,
ParentSide.ino, Songs.h): character-level models of the C / Arduino string
routines used by the wire protocol, followed by state-transformer models of
the task bodies on each node, and theorems about them. -/

namespace BabyMonitoring

/-- Value of a decimal digit character, as C computes it: code point minus 48. -/
def digitVal (c : Char) : Nat := c.toNat - 48

/-- Test for a decimal digit character, as C isdigit does on ASCII text. -/
def isDigitChar (c : Char) : Bool := decide (48 ≤ c.toNat) && decide (c.toNat ≤ 57)

/-- The decimal digit character for a value d ≤ 9. -/
def digitChar : Nat → Char
  | 0 => '0'
  | 1 => '1'
  | 2 => '2'
  | 3 => '3'
  | 4 => '4'
  | 5 => '5'
  | 6 => '6'
  | 7 => '7'
  | 8 => '8'
  | _ => '9'

/-- Decimal digits of n, most significant first: the text Arduino String(int)
produces, and the integral part of the text String(float) produces. -/
def natDigits (n : Nat) : List Char :=
  if _h : n < 10 then [digitChar n]
  else natDigits (n / 10) ++ [digitChar (n % 10)]
termination_by n
decreasing_by exact Nat.div_lt_self (by omega) (by omega)

/-- Exactly two decimal digits for a value r < 100: the fractional part of the
text Arduino String(float) produces with its default two decimal places. -/
def twoDigits (r : Nat) : List Char := [digitChar (r / 10), digitChar (r % 10)]

/-- The text Arduino String(float) produces for the value m / 100 (two decimal
places, the Arduino default): optional minus sign, integral digits, a dot and
two fractional digits.  Values are modelled at this two-decimal precision, the
precision of the textual representation on the wire. -/
def floatChars (m : Int) : List Char :=
  (if m < 0 then ['-'] else []) ++
    natDigits (m.natAbs / 100) ++ '.' :: twoDigits (m.natAbs % 100)

/-- Digit-scanning loop shared by the atoi / atof models: consumes leading
decimal digits accumulating their value, returns the value and the rest. -/
def scanDigits : Nat → List Char → Nat × List Char
  | acc, [] => (acc, [])
  | acc, c :: cs =>
    if isDigitChar c then scanDigits (acc * 10 + digitVal c) cs
    else (acc, c :: cs)

/-- Model of C atoi as used by ParentSide.ino receiveDataTask: skip spaces,
optional sign, then decimal digits up to the first non-digit. -/
def atoiChars (cs : List Char) : Int :=
  match cs.dropWhile (fun c => c = ' ') with
  | [] => 0
  | c :: rest =>
    if c = '-' then - Int.ofNat (scanDigits 0 rest).fst
    else if c = '+' then Int.ofNat (scanDigits 0 rest).fst
    else Int.ofNat (scanDigits 0 (c :: rest)).fst

/-- Value of a fraction-digit tail: each digit contributes at the next smaller
decimal place; scanning stops at the first non-digit, as strtod does. -/
def parseFrac : List Char → ℚ
  | [] => 0
  | c :: cs => if isDigitChar c then (digitVal c + parseFrac cs) / 10 else 0

/-- Magnitude part of the atof model: integral digits, then an optional dot
followed by fraction digits. -/
def atofMag (cs : List Char) : ℚ :=
  match scanDigits 0 cs with
  | (ip, []) => (ip : ℚ)
  | (ip, c :: rest) => if c = '.' then (ip : ℚ) + parseFrac rest else (ip : ℚ)

/-- Model of C atof as used by ParentSide.ino receiveDataTask: skip spaces,
optional sign, integral digits, optional dot and fraction digits. -/
def atofChars (cs : List Char) : ℚ :=
  match cs.dropWhile (fun c => c = ' ') with
  | [] => 0
  | c :: rest =>
    if c = '-' then - atofMag rest
    else if c = '+' then atofMag rest
    else atofMag (c :: rest)

/-- Splits a string at the first ':' character: returns the leading run of
non-':' characters and the remainder (which starts with ':' when nonempty). -/
def tokenTo : List Char → List Char × List Char
  | [] => ([], [])
  | c :: rest =>
    if c = ':' then ([], c :: rest)
    else
      let p := tokenTo rest
      (c :: p.fst, p.snd)

/-- Model of C strtok with delimiter set ":": skips leading delimiters, then
returns the token (maximal run of non-delimiters) and the unconsumed
remainder; returns none (strtok's NULL) when no token remains. -/
def strtokColon : List Char → Option (List Char × List Char)
  | [] => none
  | c :: rest =>
    if c = ':' then strtokColon rest
    else some ((tokenTo (c :: rest)).fst, (tokenTo (c :: rest)).snd)

/-- Model of the debounce function, identical in ParentSide.ino (lines
155-166) and BabySide.ino (lines 140-151): an input at currentTime is
accepted, and the last-input time updated, exactly when strictly more than
500 ms have elapsed since the recorded last input time. -/
def debounce (currentTime lastInputTime : Int) : Bool × Int :=
  if currentTime - lastInputTime > 500 then (true, currentTime)
  else (false, lastInputTime)

/-- Number of inputs of a time-stamped event sequence accepted by the
debounce function, threading the last-accepted timestamp through. -/
def countAccepted : Int → List Int → Nat
  | _, [] => 0
  | lastInputTime, t :: ts =>
    let r := debounce t lastInputTime
    (if r.fst then 1 else 0) + countAccepted r.snd ts

/-- Accumulated value of a digit string, most significant first (the value
the scanDigits loop computes over a run of digits). -/
def digitsAcc (acc : Nat) (ds : List Char) : Nat :=
  ds.foldl (fun a c => a * 10 + digitVal c) acc

/-! Model of the sensor node (BabySide.ino). -/

namespace BabySide

/-- BabySide.ino SensorInfo struct: sensor id, display name, current value.
Values are rationals at the two-decimal precision of the wire text. -/
structure SensorInfo where
  id : Nat
  name : String
  value : ℚ
deriving DecidableEq

/-- BabySide.ino setup line 377: xQueueCreate(10, sizeof(SensorInfo)). -/
def sensorQueueCapacity : Nat := 10

/-- Joint state of readSensorsTask (producer), the sensorQueue and
processSensorInfoTask (consumer): readings the producer has still to push in
order, current FIFO queue contents, and readings already popped in order. -/
structure PipelineState where
  pending : List SensorInfo
  queued : List SensorInfo
  delivered : List SensorInfo
deriving DecidableEq

/-- One step of the sampling-to-transmit pipeline.  xQueueSend is called with
portMAX_DELAY (BabySide.ino lines 286-303), so a push is only enabled while
the queue holds fewer than sensorQueueCapacity items — on a full queue the
producer blocks; there is no transition that discards a reading, matching the
absence of any reachable failure branch of the push. -/
inductive PipelineStep : PipelineState → PipelineState → Prop
  | push (x : SensorInfo) (rest queued delivered : List SensorInfo) :
      queued.length < sensorQueueCapacity →
      PipelineStep ⟨x :: rest, queued, delivered⟩ ⟨rest, queued ++ [x], delivered⟩
  | pop (x : SensorInfo) (pending rest delivered : List SensorInfo) :
      PipelineStep ⟨pending, x :: rest, delivered⟩ ⟨pending, rest, delivered ++ [x]⟩

/-- BabySide.ino processSensorInfoTask line 318: the outgoing message is
String(sensorInfo.id) + ":" + String(sensorInfo.value), for a reading with
id `id` and value m / 100 (two-decimal textual precision). -/
def serializeReading (id : Nat) (m : Int) : List Char :=
  natDigits id ++ ':' :: floatChars m

/-- BabySide.ino playSongTask song names (lines 266-271). -/
def littleStar : String := "Little Star"

/-- Second song name compared by playSongTask. -/
def marysLamb : String := "Mary\x27s Lamb"

/-- Third song name compared by playSongTask. -/
def wheelsOnBus : String := "Wheels on Bus"

/-- The strcmp cascade of playSongTask (BabySide.ino lines 266-274): the song
number dispatched to playSong for a message, none when no name matches (the
task then only logs "Invalid song selection."). -/
def songMatch (msg : String) : Option Nat :=
  if msg = littleStar then some 1
  else if msg = marysLamb then some 2
  else if msg = wheelsOnBus then some 3
  else none

/-- One woken cycle of playSongTask (BabySide.ino lines 261-278) as a function
of the messageReceived flag and the buffered message: returns the playback
dispatch (if any) and the new value of the flag. -/
def playSongStep (messageReceived : Bool) (incomingMessage : String) :
    Option Nat × Bool :=
  if messageReceived then (songMatch incomingMessage, false)
  else (none, messageReceived)

/-- A string matching none of the three song names, for concrete instances. -/
def unknownCommand : String := "Lullaby"

/-- A concrete reading, for concrete pipeline instances. -/
def sampleReading : SensorInfo := { id := 0, name := "Noise level", value := 0 }

/-- Pipeline state with one reading still to push and an empty queue. -/
def startPipeline : PipelineState :=
  { pending := [sampleReading], queued := [], delivered := [] }

/-- The state after pushing that reading. -/
def pushedPipeline : PipelineState :=
  { pending := [], queued := [sampleReading], delivered := [] }

/-- Nine queued readings. -/
def nineReadings : List SensorInfo :=
  [sampleReading, sampleReading, sampleReading, sampleReading, sampleReading,
   sampleReading, sampleReading, sampleReading, sampleReading]

/-- Pipeline state with a full queue (ten readings) and a pending push. -/
def fullPipeline : PipelineState :=
  { pending := [sampleReading], queued := sampleReading :: nineReadings, delivered := [] }

/-- The state after the consumer pops one reading from the full queue. -/
def poppedPipeline : PipelineState :=
  { pending := [sampleReading], queued := nineReadings, delivered := [sampleReading] }

end BabySide

/-! Model of the monitor node (ParentSide.ino). -/

namespace ParentSide

/-- ParentSide.ino enum lcdView. -/
inductive LcdView
  | MENU
  | SENSOR_MENU
  | SONG_MENU
  | SENSOR_VIEW
  | SONG_VIEW
  | ALARM
deriving DecidableEq

/-- ParentSide.ino macro NUM_SENSORS. -/
def NUM_SENSORS : Nat := 6

/-- ParentSide.ino enum sensorIDs: NOISE. -/
def NOISE : Nat := 0

/-- ParentSide.ino enum sensorIDs: TEMP. -/
def TEMP : Nat := 1

/-- ParentSide.ino enum sensorIDs: HUMIDITY. -/
def HUMIDITY : Nat := 2

/-- ParentSide.ino enum sensorIDs: MOTION. -/
def MOTION : Nat := 3

/-- ParentSide.ino enum sensorIDs: WATER. -/
def WATER : Nat := 4

/-- ParentSide.ino enum sensorIDs: LIGHT. -/
def LIGHT : Nat := 5

/-- ParentSide.ino SensorInfo struct, minus the triggerAlarm function pointer
(modelled by the dispatch function triggerAlarmFor below). -/
structure SensorInfo where
  idNum : Nat
  name : String
  value : ℚ
  alarm : Bool
deriving DecidableEq

/-- The mutable globals of ParentSide.ino shared by the receive / check /
display code, plus two observables for the externally visible effects: a
count of lcd.clear() calls and the list of messages passed to esp_now_send. -/
structure ParentState where
  currLcdView : LcdView
  sensorValues : List SensorInfo
  sensorOnTopLcdLineID : Nat
  songOnTopLcdLineID : Nat
  cursorLine : Nat
  lcdClears : Nat
  sentMessages : List String
deriving DecidableEq

/-- Sets the alarm field of the i-th entry true, as `sensorValues[i].alarm = true`
does on the 6-element array. -/
def setAlarmAt : List SensorInfo → Nat → List SensorInfo
  | [], _ => []
  | x :: xs, 0 => { x with alarm := true } :: xs
  | x :: xs, n + 1 => x :: setAlarmAt xs n

/-- The printAlarm reset loop (ParentSide.ino lines 443-445): every entry's
alarm flag is set false in one pass. -/
def resetAlarms (l : List SensorInfo) : List SensorInfo :=
  l.map fun e => { e with alarm := false }

/-- ParentSide.ino global sensorValues initializer (lines 92-99), without the
function pointers. -/
def initialSensorValues : List SensorInfo :=
  [ { idNum := NOISE, name := "Noise level", value := 0, alarm := false },
    { idNum := TEMP, name := "Tempurature", value := 0, alarm := false },
    { idNum := HUMIDITY, name := "Humidity", value := 0, alarm := false },
    { idNum := MOTION, name := "Motion", value := 0, alarm := false },
    { idNum := WATER, name := "Water level", value := 0, alarm := false },
    { idNum := LIGHT, name := "Light level", value := 0, alarm := false } ]

/-- ParentSide.ino songs array (lines 102-106). -/
def songs : List String := [ "Little Star", "Mary\x27s Lamb", "Wheels on Bus" ]

/-- The initial values of the ParentSide.ino globals (lines 108-111). -/
def initialParentState : ParentState :=
  { currLcdView := .MENU
    sensorValues := initialSensorValues
    sensorOnTopLcdLineID := 0
    songOnTopLcdLineID := 0
    cursorLine := 0
    lcdClears := 0
    sentMessages := [] }

/-- ParentSide.ino checkNoise (lines 523-534): inside the lcd semaphore, when
the display is not already in ALARM and the value exceeds the threshold, the
screen is cleared, the view becomes ALARM and the NOISE alarm flag is set;
the function reports whether it triggered. -/
def checkNoise (s : ParentState) (value : ℚ) : ParentState × Bool :=
  if s.currLcdView ≠ LcdView.ALARM ∧ value > 3500 then
    ({ s with lcdClears := s.lcdClears + 1, currLcdView := .ALARM,
              sensorValues := setAlarmAt s.sensorValues NOISE }, true)
  else (s, false)

/-- ParentSide.ino checkTempurature (lines 538-549). -/
def checkTempurature (s : ParentState) (value : ℚ) : ParentState × Bool :=
  if s.currLcdView ≠ LcdView.ALARM ∧ (value > 90 ∨ value < 60) then
    ({ s with lcdClears := s.lcdClears + 1, currLcdView := .ALARM,
              sensorValues := setAlarmAt s.sensorValues TEMP }, true)
  else (s, false)

/-- ParentSide.ino checkHumidity (lines 553-564). -/
def checkHumidity (s : ParentState) (value : ℚ) : ParentState × Bool :=
  if s.currLcdView ≠ LcdView.ALARM ∧ (value < 30 ∨ value > 60) then
    ({ s with lcdClears := s.lcdClears + 1, currLcdView := .ALARM,
              sensorValues := setAlarmAt s.sensorValues HUMIDITY }, true)
  else (s, false)

/-- ParentSide.ino checkMotion (lines 568-579). -/
def checkMotion (s : ParentState) (value : ℚ) : ParentState × Bool :=
  if s.currLcdView ≠ LcdView.ALARM ∧ value ≠ 0 then
    ({ s with lcdClears := s.lcdClears + 1, currLcdView := .ALARM,
              sensorValues := setAlarmAt s.sensorValues MOTION }, true)
  else (s, false)

/-- ParentSide.ino checkWater (lines 583-594). -/
def checkWater (s : ParentState) (value : ℚ) : ParentState × Bool :=
  if s.currLcdView ≠ LcdView.ALARM ∧ value > 300 then
    ({ s with lcdClears := s.lcdClears + 1, currLcdView := .ALARM,
              sensorValues := setAlarmAt s.sensorValues WATER }, true)
  else (s, false)

/-- ParentSide.ino checkLight (lines 598-609). -/
def checkLight (s : ParentState) (value : ℚ) : ParentState × Bool :=
  if s.currLcdView ≠ LcdView.ALARM ∧ value > 3500 then
    ({ s with lcdClears := s.lcdClears + 1, currLcdView := .ALARM,
              sensorValues := setAlarmAt s.sensorValues LIGHT }, true)
  else (s, false)

/-- The triggerAlarm function pointer stored in sensorValues[i] by the
initializer (ParentSide.ino lines 92-99): index 0 holds checkNoise and so on.
Indices outside the array (undefined behaviour in the C code, see the claim
about the missing range check) are modelled as a no-op. -/
def triggerAlarmFor : Nat → ParentState → ℚ → ParentState × Bool
  | 0 => checkNoise
  | 1 => checkTempurature
  | 2 => checkHumidity
  | 3 => checkMotion
  | 4 => checkWater
  | 5 => checkLight
  | _ => fun s _ => (s, false)

/-- Modelled from the spec: the threshold table of section 4.4, one trigger
condition per sensor kind, a pure function of the value alone.  This is the
spec side of the refinement; the code side is the checkNoise family above. -/
def specThresholdTable (i : Nat) (value : ℚ) : Bool :=
  if i = 0 then decide (value > 3500)
  else if i = 1 then decide (value > 90) || decide (value < 60)
  else if i = 2 then decide (value < 30) || decide (value > 60)
  else if i = 3 then decide (value ≠ 0)
  else if i = 4 then decide (value > 300)
  else if i = 5 then decide (value > 3500)
  else false

/-- ParentSide.ino receiveDataTask parsing (lines 176-186): strtok splits the
message at ':'; when both tokens exist the id is converted with atoi and the
value with atof.  Returns none when either token is missing (the update is
skipped). -/
def parseMessage (cs : List Char) : Option (Int × ℚ) :=
  match strtokColon cs with
  | none => none
  | some (tok1, rest1) =>
    match strtokColon rest1 with
    | none => none
    | some (tok2, _) => some (atoiChars tok1, atofChars tok2)

/-- The array index used by receiveDataTask line 183,
`&sensorValues[sensorId]`: the atoi result itself, with no range check
between the parse and the access. -/
def receiveAccessIndex (cs : List Char) : Option Int :=
  match parseMessage cs with
  | none => none
  | some (id, _) => some id

/-- In-bounds condition for an access to the 6-element sensorValues array. -/
def indexInBounds (i : Int) : Prop := 0 ≤ i ∧ i < (NUM_SENSORS : Int)

/-- ParentSide.ino global buffer `volatile char incomingMessage[10]` (line 89). -/
def incomingMessageSize : Nat := 10

/-- Modelled from the spec: the wire format (sections 4.1 and 6) allows
payloads up to 18 bytes; the sensor node's own receive buffer is char[18]. -/
def maxWirePayload : Nat := 18

/-- Buffer indices written by onDataRecv (ParentSide.ino lines 146-147) for a
payload of length len: memcpy writes indices 0..len-1, then the null
terminator is written at index len. -/
def onDataRecvWrittenIndices (len : Nat) : List Nat := List.range len ++ [len]

/-- All writes of onDataRecv for payload length len land inside the 10-byte
incomingMessage buffer. -/
def recvWritesInBounds (len : Nat) : Prop :=
  ∀ i ∈ onDataRecvWrittenIndices len, i < incomingMessageSize

/-- The accepted joystick inputs (after GO_UP / GO_DOWN / GO_LEFT mapping and
debouncing): select press, left, down, up. -/
inductive Joy
  | select
  | left
  | down
  | up
deriving DecidableEq

/-- ParentSide.ino moveCursor (lines 195-208) effect on state: the cursor
toggles between the two lcd lines. -/
def moveCursor (s : ParentState) : ParentState :=
  { s with cursorLine := (s.cursorLine + 1) % 2 }

/-- ParentSide.ino printSensorMenu navigation (lines 272-314), as a function
of the accepted input for this cycle (cycles without an accepted input leave
the state unchanged). -/
def printSensorMenuInput (s : ParentState) : Joy → ParentState
  | .select =>
    { s with lcdClears := s.lcdClears + 1,
             sensorOnTopLcdLineID := (s.sensorOnTopLcdLineID + s.cursorLine) % NUM_SENSORS,
             cursorLine := 0, currLcdView := .SENSOR_VIEW }
  | .left =>
    { s with lcdClears := s.lcdClears + 1, cursorLine := 0, currLcdView := .MENU }
  | .down =>
    if s.cursorLine = 0 then moveCursor s
    else { s with sensorOnTopLcdLineID := (s.sensorOnTopLcdLineID + 1) % NUM_SENSORS,
                  lcdClears := s.lcdClears + 1 }
  | .up =>
    if s.cursorLine = 1 then moveCursor s
    else if s.sensorOnTopLcdLineID = 0 then
      { s with sensorOnTopLcdLineID := 5, lcdClears := s.lcdClears + 1 }
    else
      { s with sensorOnTopLcdLineID := s.sensorOnTopLcdLineID - 1,
               lcdClears := s.lcdClears + 1 }

/-- ParentSide.ino printSongMenu navigation (lines 343-383), as a function of
the accepted input for this cycle.  The scroll-up page branch reproduces the
source exactly: when songOnTopLcdLineID is 0, line 375 assigns
sensorOnTopLcdLineID = 2 (and not songOnTopLcdLineID). -/
def printSongMenuInput (s : ParentState) : Joy → ParentState
  | .select =>
    { s with lcdClears := s.lcdClears + 1,
             songOnTopLcdLineID := (s.songOnTopLcdLineID + s.cursorLine) % 3,
             cursorLine := 0, currLcdView := .SONG_VIEW }
  | .left =>
    { s with lcdClears := s.lcdClears + 1, cursorLine := 0, currLcdView := .MENU }
  | .down =>
    if s.cursorLine = 0 then moveCursor s
    else { s with songOnTopLcdLineID := (s.songOnTopLcdLineID + 1) % 3,
                  lcdClears := s.lcdClears + 1 }
  | .up =>
    if s.cursorLine = 1 then moveCursor s
    else if s.songOnTopLcdLineID = 0 then
      { s with sensorOnTopLcdLineID := 2, lcdClears := s.lcdClears + 1 }
    else
      { s with songOnTopLcdLineID := s.songOnTopLcdLineID - 1,
               lcdClears := s.lcdClears + 1 }

/-- ParentSide.ino printAlarm navigation (lines 438-474), as a function of
the accepted input for this cycle: left clears the screen, resets the cursor,
resets every alarm flag and returns to MENU; the other three axes send one of
the three songs to the sensor node (two lcd clears around the transient
confirmation message). -/
def printAlarmInput (s : ParentState) : Joy → ParentState
  | .left =>
    { s with lcdClears := s.lcdClears + 1, cursorLine := 0,
             sensorValues := resetAlarms s.sensorValues, currLcdView := .MENU }
  | .select =>
    { s with sentMessages := s.sentMessages ++ [songs.getD 0 ""],
             lcdClears := s.lcdClears + 2 }
  | .up =>
    { s with sentMessages := s.sentMessages ++ [songs.getD 1 ""],
             lcdClears := s.lcdClears + 2 }
  | .down =>
    { s with sentMessages := s.sentMessages ++ [songs.getD 2 ""],
             lcdClears := s.lcdClears + 2 }

/-- Monitor state while the display shows the alarm view. -/
def alarmStateExample : ParentState :=
  { initialParentState with currLcdView := .ALARM }

/-- Monitor state in the song menu, both top indices 0, cursor on line 0. -/
def songMenuState : ParentState :=
  { initialParentState with currLcdView := .SONG_MENU }

/-- Monitor state in the sensor menu with the cursor on the lower line, so an
accepted downward input page-scrolls the sensor list. -/
def sensorMenuScrollState : ParentState :=
  { initialParentState with currLcdView := .SENSOR_MENU, cursorLine := 1 }

/-- A syntactically well-formed reading message whose id field parses to 7,
outside the sensorValues array. -/
def oobMessage : List Char := "7:1.00".toList

end ParentSide

/-! Lemmas about the character machinery, leading to the wire round trip. -/

theorem isDigitChar_digitChar (n : Nat) : isDigitChar (digitChar n) = true := by
  unfold digitChar
  split <;> decide

theorem digitVal_digitChar {d : Nat} (h : d < 10) : digitVal (digitChar d) = d := by
  interval_cases d <;> decide

theorem digit_ne {c : Char} (h : isDigitChar c = true) :
    c ≠ ':' ∧ c ≠ '.' ∧ c ≠ '-' ∧ c ≠ '+' ∧ c ≠ ' ' := by
  refine ⟨?_, ?_, ?_, ?_, ?_⟩ <;> intro hc <;> subst hc <;> revert h <;> decide

theorem natDigits_small {n : Nat} (h : n < 10) : natDigits n = [digitChar n] := by
  rw [natDigits]
  simp [h]

theorem natDigits_large {n : Nat} (h : ¬ n < 10) :
    natDigits n = natDigits (n / 10) ++ [digitChar (n % 10)] := by
  conv_lhs => rw [natDigits]
  simp [h]

theorem natDigits_all_digits : ∀ n : Nat, ∀ c ∈ natDigits n, isDigitChar c = true := by
  intro n
  induction n using Nat.strong_induction_on with
  | _ n ih =>
    by_cases h : n < 10
    · rw [natDigits_small h]
      intro c hc
      rw [List.mem_singleton] at hc
      subst hc
      exact isDigitChar_digitChar n
    · rw [natDigits_large h]
      intro c hc
      rcases List.mem_append.mp hc with h1 | h2
      · exact ih (n / 10) (Nat.div_lt_self (by omega) (by omega)) c h1
      · rw [List.mem_singleton] at h2
        subst h2
        exact isDigitChar_digitChar (n % 10)

theorem natDigits_ne_nil (n : Nat) : natDigits n ≠ [] := by
  by_cases h : n < 10
  · rw [natDigits_small h]; simp
  · rw [natDigits_large h]; simp

theorem natDigits_head (n : Nat) :
    ∃ d ds, natDigits n = d :: ds ∧ isDigitChar d = true := by
  rcases hd : natDigits n with _ | ⟨d, ds⟩
  · exact absurd hd (natDigits_ne_nil n)
  · exact ⟨d, ds, rfl, natDigits_all_digits n d (by rw [hd]; simp)⟩

theorem twoDigits_all_digits (r : Nat) : ∀ c ∈ twoDigits r, isDigitChar c = true := by
  intro c hc
  simp only [twoDigits, List.mem_cons, List.mem_singleton, List.not_mem_nil, or_false] at hc
  rcases hc with h | h <;> subst h <;> exact isDigitChar_digitChar _

theorem digitsAcc_append (acc : Nat) (l1 l2 : List Char) :
    digitsAcc acc (l1 ++ l2) = digitsAcc (digitsAcc acc l1) l2 := by
  simp [digitsAcc, List.foldl_append]

theorem digitsAcc_natDigits : ∀ n : Nat, digitsAcc 0 (natDigits n) = n := by
  intro n
  induction n using Nat.strong_induction_on with
  | _ n ih =>
    by_cases h : n < 10
    · rw [natDigits_small h]
      simp [digitsAcc, digitVal_digitChar h]
    · rw [natDigits_large h, digitsAcc_append, ih (n / 10) (Nat.div_lt_self (by omega) (by omega))]
      have hm : n % 10 < 10 := Nat.mod_lt _ (by omega)
      simp [digitsAcc, digitVal_digitChar hm]
      omega

theorem scanDigits_digits_append :
    ∀ (ds : List Char) (acc : Nat) (rest : List Char),
      (∀ c ∈ ds, isDigitChar c = true) →
      scanDigits acc (ds ++ rest) = scanDigits (digitsAcc acc ds) rest := by
  intro ds
  induction ds with
  | nil => intro acc rest _; simp [digitsAcc]
  | cons c cs ih =>
    intro acc rest h
    have hc : isDigitChar c = true := h c (by simp)
    rw [List.cons_append, scanDigits, if_pos hc, ih (acc * 10 + digitVal c) rest
      (fun x hx => h x (by simp [hx]))]
    rfl

theorem scanDigits_stop (acc : Nat) {cs : List Char}
    (h : ∀ c rest, cs = c :: rest → isDigitChar c = false) :
    scanDigits acc cs = (acc, cs) := by
  cases cs with
  | nil => rfl
  | cons c rest => rw [scanDigits, if_neg (by simp [h c rest rfl])]

theorem tokenTo_no_colon : ∀ cs : List Char, (∀ c ∈ cs, c ≠ ':') → tokenTo cs = (cs, []) := by
  intro cs
  induction cs with
  | nil => intro _; rfl
  | cons c rest ih =>
    intro h
    rw [tokenTo, if_neg (h c (by simp))]
    simp [ih fun x hx => h x (by simp [hx])]

theorem tokenTo_append_colon :
    ∀ (ds rest : List Char), (∀ c ∈ ds, c ≠ ':') →
      tokenTo (ds ++ ':' :: rest) = (ds, ':' :: rest) := by
  intro ds
  induction ds with
  | nil => intro rest _; rw [List.nil_append, tokenTo, if_pos rfl]
  | cons c cs ih =>
    intro rest h
    rw [List.cons_append, tokenTo, if_neg (h c (by simp))]
    simp [ih rest fun x hx => h x (by simp [hx])]

theorem strtokColon_cons {c : Char} (h : c ≠ ':') (rest : List Char) :
    strtokColon (c :: rest) =
      some ((tokenTo (c :: rest)).fst, (tokenTo (c :: rest)).snd) := by
  rw [strtokColon, if_neg h]

theorem strtokColon_no_colon {cs : List Char} (hne : cs ≠ [])
    (h : ∀ c ∈ cs, c ≠ ':') : strtokColon cs = some (cs, []) := by
  cases cs with
  | nil => exact absurd rfl hne
  | cons c rest =>
    rw [strtokColon_cons (h c (by simp)) rest, tokenTo_no_colon _ h]

theorem atoiChars_natDigits (n : Nat) : atoiChars (natDigits n) = Int.ofNat n := by
  obtain ⟨d, ds, hd, hdig⟩ := natDigits_head n
  obtain ⟨-, -, hminus, hplus, hspace⟩ := digit_ne hdig
  have hscan : scanDigits 0 (natDigits n) = (n, []) := by
    have h2 := scanDigits_digits_append (natDigits n) 0 [] (natDigits_all_digits n)
    rw [List.append_nil] at h2
    rw [h2, digitsAcc_natDigits]
    rfl
  unfold atoiChars
  rw [hd, List.dropWhile_cons, if_neg (by simp [hspace])]
  dsimp only
  rw [if_neg hminus, if_neg hplus, ← hd, hscan]

theorem parseFrac_twoDigits {r : Nat} (h : r < 100) :
    parseFrac (twoDigits r) = (r : ℚ) / 100 := by
  have h1 : r / 10 < 10 := by omega
  have h2 : r % 10 < 10 := by omega
  have hr : (10 * (r / 10) + r % 10 : Nat) = r := by omega
  have hcast : ((r : ℚ)) = 10 * ((r / 10 : Nat) : ℚ) + ((r % 10 : Nat) : ℚ) := by
    exact_mod_cast hr.symm
  simp only [twoDigits, parseFrac, isDigitChar_digitChar, if_true,
    digitVal_digitChar h1, digitVal_digitChar h2]
  rw [hcast]
  ring

theorem atofMag_digits_frac (k : Nat) :
    atofMag (natDigits (k / 100) ++ '.' :: twoDigits (k % 100)) = (k : ℚ) / 100 := by
  have hscan : scanDigits 0 (natDigits (k / 100) ++ '.' :: twoDigits (k % 100))
      = (k / 100, '.' :: twoDigits (k % 100)) := by
    rw [scanDigits_digits_append _ _ _ (natDigits_all_digits _), digitsAcc_natDigits]
    exact scanDigits_stop _ fun c rest hc => by
      injection hc with hc1 _
      subst hc1
      decide
  unfold atofMag
  rw [hscan]
  dsimp only
  rw [if_pos rfl, parseFrac_twoDigits (Nat.mod_lt _ (by omega))]
  have hk : (100 * (k / 100) + k % 100 : Nat) = k := by omega
  have hcast : ((k : ℚ)) = 100 * ((k / 100 : Nat) : ℚ) + ((k % 100 : Nat) : ℚ) := by
    exact_mod_cast hk.symm
  rw [hcast]
  ring

theorem floatChars_no_colon (m : Int) : ∀ c ∈ floatChars m, c ≠ ':' := by
  intro c hc
  unfold floatChars at hc
  rcases List.mem_append.mp hc with h12 | h3
  · rcases List.mem_append.mp h12 with h1 | h2
    · split at h1
      · rw [List.mem_singleton] at h1
        subst h1
        decide
      · simp at h1
    · exact (digit_ne (natDigits_all_digits _ _ h2)).1
  · rcases List.mem_cons.mp h3 with h4 | h4
    · subst h4
      decide
    · exact (digit_ne (twoDigits_all_digits _ _ h4)).1

theorem floatChars_ne_nil (m : Int) : floatChars m ≠ [] := by
  unfold floatChars
  simp

theorem atofChars_floatChars (m : Int) : atofChars (floatChars m) = (m : ℚ) / 100 := by
  by_cases hm : m < 0
  · have hfc : floatChars m
        = '-' :: (natDigits (m.natAbs / 100) ++ '.' :: twoDigits (m.natAbs % 100)) := by
      rw [floatChars, if_pos hm, List.singleton_append, List.cons_append]
    rw [hfc]
    unfold atofChars
    rw [List.dropWhile_cons, if_neg (by decide)]
    dsimp only
    rw [if_pos rfl, atofMag_digits_frac]
    have hmq : (m : ℚ) < 0 := by exact_mod_cast hm
    have h1 : ((m.natAbs : ℚ)) = -(m : ℚ) := by
      rw [Int.cast_natAbs]
      push_cast
      exact abs_of_neg hmq
    rw [h1]
    ring
  · have hfc : floatChars m
        = natDigits (m.natAbs / 100) ++ '.' :: twoDigits (m.natAbs % 100) := by
      rw [floatChars, if_neg hm, List.nil_append]
    obtain ⟨d, ds, hd, hdig⟩ := natDigits_head (m.natAbs / 100)
    obtain ⟨-, -, hminus, hplus, hspace⟩ := digit_ne hdig
    rw [hfc, hd, List.cons_append]
    unfold atofChars
    rw [List.dropWhile_cons, if_neg (by simp [hspace])]
    dsimp only
    rw [if_neg hminus, if_neg hplus, ← List.cons_append, ← hd, atofMag_digits_frac]
    have hmq : (0 : ℚ) ≤ (m : ℚ) := by exact_mod_cast not_lt.mp hm
    have h1 : ((m.natAbs : ℚ)) = (m : ℚ) := by
      rw [Int.cast_natAbs]
      push_cast
      exact abs_of_nonneg hmq
    rw [h1]

theorem serialize_parse_roundtrip (id : Nat) (m : Int) :
    ParentSide.parseMessage (BabySide.serializeReading id m)
      = some (Int.ofNat id, (m : ℚ) / 100) := by
  obtain ⟨d, ds, hd, hdig⟩ := natDigits_head id
  have hid_nc : ∀ c ∈ natDigits id, c ≠ ':' :=
    fun c hc => (digit_ne (natDigits_all_digits id c hc)).1
  have h1 : strtokColon (BabySide.serializeReading id m)
      = some (natDigits id, ':' :: floatChars m) := by
    unfold BabySide.serializeReading
    rw [hd, List.cons_append, strtokColon_cons (fun he => (digit_ne hdig).1 he) _,
        ← List.cons_append, ← hd, tokenTo_append_colon _ _ hid_nc]
  have h2 : strtokColon (':' :: floatChars m) = some (floatChars m, []) := by
    rw [strtokColon, if_pos rfl]
    exact strtokColon_no_colon (floatChars_ne_nil m) (floatChars_no_colon m)
  unfold ParentSide.parseMessage
  rw [h1]
  dsimp only
  rw [h2]
  dsimp only
  rw [atoiChars_natDigits, atofChars_floatChars]

/-! Lemmas about the sensor-node pipeline model. -/

namespace BabySide

theorem pipeline_conservation {s t : PipelineState}
    (h : Relation.ReflTransGen PipelineStep s t) :
    t.delivered ++ t.queued ++ t.pending = s.delivered ++ s.queued ++ s.pending := by
  induction h with
  | refl => rfl
  | tail _ hstep ih =>
    rw [← ih]
    cases hstep with
    | push x rest queued delivered hlt => simp
    | pop x pending rest delivered => simp

theorem pipeline_bound {s t : PipelineState}
    (h : Relation.ReflTransGen PipelineStep s t)
    (hs : s.queued.length ≤ sensorQueueCapacity) :
    t.queued.length ≤ sensorQueueCapacity := by
  induction h with
  | refl => exact hs
  | tail _ hstep ih =>
    cases hstep with
    | push x rest queued delivered hlt =>
      simp only [List.length_append, List.length_singleton]
      omega
    | pop x pending rest delivered =>
      simp only [List.length_cons] at ih
      show rest.length ≤ sensorQueueCapacity
      omega

theorem pipeline_full_only_pop {s t : PipelineState}
    (hfull : s.queued.length = sensorQueueCapacity)
    (hstep : PipelineStep s t) :
    t.pending = s.pending ∧ t.queued.length + 1 = sensorQueueCapacity := by
  cases hstep with
  | push x rest queued delivered hlt => exact absurd hfull (Nat.ne_of_lt hlt)
  | pop x pending rest delivered =>
    refine ⟨rfl, ?_⟩
    simpa using hfull

end BabySide

/-! Lemmas about the monitor-node alarm checks and display model. -/

namespace ParentSide

theorem checkNoise_snd (s : ParentState) (v : ℚ) :
    (checkNoise s v).snd
      = (decide (s.currLcdView ≠ LcdView.ALARM) && decide (v > 3500)) := by
  unfold checkNoise
  by_cases h1 : s.currLcdView ≠ LcdView.ALARM <;> by_cases h2 : v > 3500 <;>
    simp [h1, h2]

theorem checkTempurature_snd (s : ParentState) (v : ℚ) :
    (checkTempurature s v).snd
      = (decide (s.currLcdView ≠ LcdView.ALARM) && (decide (v > 90) || decide (v < 60))) := by
  unfold checkTempurature
  by_cases h1 : s.currLcdView ≠ LcdView.ALARM <;> by_cases h2 : v > 90 <;>
    by_cases h3 : v < 60 <;> simp [h1, h2, h3]

theorem checkHumidity_snd (s : ParentState) (v : ℚ) :
    (checkHumidity s v).snd
      = (decide (s.currLcdView ≠ LcdView.ALARM) && (decide (v < 30) || decide (v > 60))) := by
  unfold checkHumidity
  by_cases h1 : s.currLcdView ≠ LcdView.ALARM <;> by_cases h2 : v < 30 <;>
    by_cases h3 : v > 60 <;> simp [h1, h2, h3]

theorem checkMotion_snd (s : ParentState) (v : ℚ) :
    (checkMotion s v).snd
      = (decide (s.currLcdView ≠ LcdView.ALARM) && decide (v ≠ 0)) := by
  unfold checkMotion
  by_cases h1 : s.currLcdView ≠ LcdView.ALARM <;> by_cases h2 : v ≠ 0 <;>
    simp [h1, h2]

theorem checkWater_snd (s : ParentState) (v : ℚ) :
    (checkWater s v).snd
      = (decide (s.currLcdView ≠ LcdView.ALARM) && decide (v > 300)) := by
  unfold checkWater
  by_cases h1 : s.currLcdView ≠ LcdView.ALARM <;> by_cases h2 : v > 300 <;>
    simp [h1, h2]

theorem checkLight_snd (s : ParentState) (v : ℚ) :
    (checkLight s v).snd
      = (decide (s.currLcdView ≠ LcdView.ALARM) && decide (v > 3500)) := by
  unfold checkLight
  by_cases h1 : s.currLcdView ≠ LcdView.ALARM <;> by_cases h2 : v > 3500 <;>
    simp [h1, h2]

theorem map_alarm_reset : ∀ l : List SensorInfo,
    (resetAlarms l).map SensorInfo.alarm = List.replicate l.length false := by
  intro l
  induction l with
  | nil => rfl
  | cons x xs ih =>
    show false :: (resetAlarms xs).map SensorInfo.alarm
        = false :: List.replicate xs.length false
    rw [ih]

theorem map_nameValue_reset : ∀ l : List SensorInfo,
    (resetAlarms l).map (fun e => (e.name, e.value)) = l.map fun e => (e.name, e.value) := by
  intro l
  induction l with
  | nil => rfl
  | cons x xs ih => simp [resetAlarms, ih]

/-! The claim theorems about the monitor node. -/

/-- Claim C1: for each of the six sensor kinds, the trigger reported by the
check function dispatched through sensorValues[i] agrees, in every state not
already showing ALARM, with the pure threshold table of the spec (section
4.4) applied to the value alone; the temperature boundaries are exact:
59.9 (599/10) trips, 60.0 and 90.0 do not, 90.1 (901/10) trips. -/
theorem claim_C1_threshold_table :
    (∀ i : Nat, i < 6 → ∀ (s : ParentState) (v : ℚ), s.currLcdView ≠ LcdView.ALARM →
        (triggerAlarmFor i s v).snd = specThresholdTable i v)
      ∧ (checkTempurature initialParentState (599 / 10 : ℚ)).snd = true
      ∧ (checkTempurature initialParentState (60 : ℚ)).snd = false
      ∧ (checkTempurature initialParentState (90 : ℚ)).snd = false
      ∧ (checkTempurature initialParentState (901 / 10 : ℚ)).snd = true := by
  refine ⟨?_, ?_, ?_, ?_, ?_⟩
  · intro i hi s v hview
    interval_cases i <;>
      simp [triggerAlarmFor, checkNoise_snd, checkTempurature_snd, checkHumidity_snd,
        checkMotion_snd, checkWater_snd, checkLight_snd, specThresholdTable, hview]
  · have h : (599 / 10 : ℚ) < 60 := by norm_num
    rw [checkTempurature_snd]
    simp [initialParentState, h]
  · have h1 : ¬ (60 : ℚ) < 60 := by norm_num
    have h2 : ¬ (60 : ℚ) > 90 := by norm_num
    rw [checkTempurature_snd]
    simp [initialParentState, h1, h2]
  · have h1 : ¬ (90 : ℚ) < 60 := by norm_num
    have h2 : ¬ (90 : ℚ) > 90 := by norm_num
    rw [checkTempurature_snd]
    simp [initialParentState, h1, h2]
  · have h : (901 / 10 : ℚ) > 90 := by norm_num
    rw [checkTempurature_snd]
    simp [initialParentState, h]

/-- Witness for C1: the dispatch-table equality instantiated at the motion
sensor, the initial state and value 1. -/
theorem claim_C1_threshold_table_witness :
    (triggerAlarmFor 3 initialParentState 1).snd = specThresholdTable 3 1 :=
  claim_C1_threshold_table.1 3 (by decide) initialParentState 1 (by decide)

/-- Claim C2 (amended): the transition to ALARM fires exactly when the
reading's threshold predicate holds and the display is not already in ALARM,
clearing the screen and setting the triggering entry's alarm flag; while the
display is already in ALARM a further trip changes nothing at all — in
particular the alarm flags of additionally tripping sensors do NOT accumulate
during the open episode. -/
theorem claim_C2_alarm_transition (i : Fin 6) (s : ParentState) (v : ℚ) :
    triggerAlarmFor i.val s v =
      if s.currLcdView ≠ LcdView.ALARM ∧ specThresholdTable i.val v = true then
        ({ s with lcdClears := s.lcdClears + 1, currLcdView := .ALARM,
                  sensorValues := setAlarmAt s.sensorValues i.val }, true)
      else (s, false) := by
  obtain ⟨i, hi⟩ := i
  interval_cases i
  · by_cases h1 : s.currLcdView ≠ LcdView.ALARM <;> by_cases h2 : v > 3500 <;>
      simp [triggerAlarmFor, checkNoise, specThresholdTable, NOISE, h1, h2]
  · by_cases h1 : s.currLcdView ≠ LcdView.ALARM <;> by_cases h2 : v > 90 <;>
      by_cases h3 : v < 60 <;>
      simp [triggerAlarmFor, checkTempurature, specThresholdTable, TEMP, h1, h2, h3]
  · by_cases h1 : s.currLcdView ≠ LcdView.ALARM <;> by_cases h2 : v < 30 <;>
      by_cases h3 : v > 60 <;>
      simp [triggerAlarmFor, checkHumidity, specThresholdTable, HUMIDITY, h1, h2, h3]
  · by_cases h1 : s.currLcdView ≠ LcdView.ALARM <;> by_cases h2 : v ≠ 0 <;>
      simp [triggerAlarmFor, checkMotion, specThresholdTable, MOTION, h1, h2]
  · by_cases h1 : s.currLcdView ≠ LcdView.ALARM <;> by_cases h2 : v > 300 <;>
      simp [triggerAlarmFor, checkWater, specThresholdTable, WATER, h1, h2]
  · by_cases h1 : s.currLcdView ≠ LcdView.ALARM <;> by_cases h2 : v > 3500 <;>
      simp [triggerAlarmFor, checkLight, specThresholdTable, LIGHT, h1, h2]

/-- Counterexample to claim C2 as stated: with the display already in ALARM, a
motion reading of 1 trips the table predicate, yet the check function leaves
the whole state unchanged — the motion entry's alarm flag stays false instead
of accumulating. -/
theorem claim_C2_counterexample :
    specThresholdTable MOTION 1 = true
      ∧ alarmStateExample.currLcdView = LcdView.ALARM
      ∧ (checkMotion alarmStateExample 1).fst = alarmStateExample
      ∧ ((checkMotion alarmStateExample 1).fst.sensorValues.getD MOTION
            { idNum := 0, name := "", value := 0, alarm := true }).alarm = false := by
  decide

/-- Claim C7: evaluation of the code at the claim's inputs.  An accepted
scroll-up in the song menu with the song top index at 0 and the cursor on
line 0 sets the SENSOR top index to 2 and leaves the song top index at 0
(ParentSide.ino line 375 assigns sensorOnTopLcdLineID); six accepted downward
page scrolls in the sensor menu return the sensor top index to 0. -/
theorem claim_C7_circular_scroll :
    (printSongMenuInput songMenuState Joy.up).sensorOnTopLcdLineID = 2
      ∧ (printSongMenuInput songMenuState Joy.up).songOnTopLcdLineID = 0
      ∧ songMenuState.songOnTopLcdLineID = 0
      ∧ songMenuState.sensorOnTopLcdLineID = 0
      ∧ ((fun s => printSensorMenuInput s Joy.down)^[6]
            sensorMenuScrollState).sensorOnTopLcdLineID = 0
      ∧ sensorMenuScrollState.sensorOnTopLcdLineID = 0 := by
  decide

/-- Claim C8: an accepted left/back input on the ALARM view resets all alarm
flags in one operation, returns the view to MENU and the cursor to line 0,
and leaves every sensor's name and stored value and both menu top indices
unchanged. -/
theorem claim_C8_alarm_reset (s : ParentState) :
    (printAlarmInput s Joy.left).sensorValues.map SensorInfo.alarm
        = List.replicate s.sensorValues.length false
      ∧ (printAlarmInput s Joy.left).currLcdView = LcdView.MENU
      ∧ (printAlarmInput s Joy.left).cursorLine = 0
      ∧ (printAlarmInput s Joy.left).sensorValues.map (fun e => (e.name, e.value))
          = s.sensorValues.map (fun e => (e.name, e.value))
      ∧ (printAlarmInput s Joy.left).sensorOnTopLcdLineID = s.sensorOnTopLcdLineID
      ∧ (printAlarmInput s Joy.left).songOnTopLcdLineID = s.songOnTopLcdLineID :=
  ⟨map_alarm_reset s.sensorValues, rfl, rfl, map_nameValue_reset s.sensorValues, rfl, rfl⟩

/-- Claim C9: the receive task uses the atoi result of the id field directly
as the sensorValues index; the access is in bounds exactly for parsed ids in
{0..5}, and the well-formed message "7:1.00" parses to index 7, outside the
6-element array. -/
theorem claim_C9_unchecked_index :
    receiveAccessIndex oobMessage = some 7
      ∧ ¬ indexInBounds 7
      ∧ initialSensorValues.length = NUM_SENSORS
      ∧ (∀ i : Int, indexInBounds i ↔ 0 ≤ i ∧ i.toNat < initialSensorValues.length) := by
  refine ⟨by decide, by unfold indexInBounds NUM_SENSORS; decide, by decide, ?_⟩
  intro i
  have hlen : initialSensorValues.length = 6 := rfl
  rw [hlen]
  unfold indexInBounds NUM_SENSORS
  omega

/-- Claim C10: the receive ISR's writes (memcpy of len bytes plus the null
terminator at index len) stay inside the 10-byte incomingMessage buffer
exactly when len ≤ 9, and the wire format admits payload lengths (for
example 17) whose copy writes past the end of the buffer. -/
theorem claim_C10_recv_overflow :
    (∀ len : Nat, recvWritesInBounds len ↔ len ≤ 9)
      ∧ (∃ len : Nat, len ≤ maxWirePayload ∧ ¬ recvWritesInBounds len) := by
  constructor
  · intro len
    unfold recvWritesInBounds onDataRecvWrittenIndices incomingMessageSize
    constructor
    · intro h
      have hl := h len (by simp)
      omega
    · intro h i hi
      simp only [List.mem_append, List.mem_range, List.mem_singleton] at hi
      rcases hi with h1 | h1 <;> omega
  · refine ⟨17, by decide, ?_⟩
    unfold recvWritesInBounds onDataRecvWrittenIndices incomingMessageSize
    decide

end ParentSide

/-! The claim theorems about the wire format and the sensor node. -/

/-- Claim C3: for every sensor id in {0..5} and every value representable in
the two-decimal wire text (value = m / 100), serializing the reading on the
sensor node and parsing it on the monitor node yields back the same id and
the same value. -/
theorem claim_C3_wire_roundtrip (id : Nat) (_hid : id < 6) (m : Int) :
    ParentSide.parseMessage (BabySide.serializeReading id m)
      = some (Int.ofNat id, (m : ℚ) / 100) :=
  serialize_parse_roundtrip id m

/-- Witness for C3: the spec's end-to-end example, id 1 with value 95.00. -/
theorem claim_C3_wire_roundtrip_witness :
    ParentSide.parseMessage (BabySide.serializeReading 1 9500)
      = some (Int.ofNat 1, ((9500 : Int) : ℚ) / 100) :=
  claim_C3_wire_roundtrip 1 (by decide) 9500

/-- Claim C4: a woken command task with a pending message dispatches playback
exactly once for each of the three exact song names (songs 1, 2, 3), ignores
any other string without dispatching, and clears the message-received flag in
every case. -/
theorem claim_C4_command_dispatch (msg : String) :
    (msg = BabySide.littleStar → BabySide.playSongStep true msg = (some 1, false))
      ∧ (msg = BabySide.marysLamb → BabySide.playSongStep true msg = (some 2, false))
      ∧ (msg = BabySide.wheelsOnBus → BabySide.playSongStep true msg = (some 3, false))
      ∧ (msg ≠ BabySide.littleStar → msg ≠ BabySide.marysLamb → msg ≠ BabySide.wheelsOnBus →
          BabySide.playSongStep true msg = (none, false)) := by
  refine ⟨?_, ?_, ?_, ?_⟩
  · intro h
    subst h
    decide
  · intro h
    subst h
    decide
  · intro h
    subst h
    decide
  · intro h1 h2 h3
    simp [BabySide.playSongStep, BabySide.songMatch, h1, h2, h3]

/-- Witness for C4: the first song name dispatches song 1 and clears the
flag; an unknown command dispatches nothing and clears the flag. -/
theorem claim_C4_command_dispatch_witness :
    BabySide.playSongStep true BabySide.littleStar = (some 1, false)
      ∧ BabySide.playSongStep true BabySide.unknownCommand = (none, false) :=
  ⟨(claim_C4_command_dispatch BabySide.littleStar).1 rfl,
   (claim_C4_command_dispatch BabySide.unknownCommand).2.2.2
      (by decide) (by decide) (by decide)⟩

/-- Claim C5: the sampling-to-transmit queue has capacity exactly 10; along
every run of the pipeline the delivered, queued and pending readings together
are conserved (no reading is ever dropped) and the queue never exceeds its
capacity; from a full queue the only enabled step is a pop, which frees
exactly one slot while the pending push waits. -/
theorem claim_C5_queue_no_loss :
    BabySide.sensorQueueCapacity = 10
      ∧ (∀ s t : BabySide.PipelineState, Relation.ReflTransGen BabySide.PipelineStep s t →
            t.delivered ++ t.queued ++ t.pending = s.delivered ++ s.queued ++ s.pending
              ∧ (s.queued.length ≤ BabySide.sensorQueueCapacity →
                  t.queued.length ≤ BabySide.sensorQueueCapacity))
      ∧ (∀ s t : BabySide.PipelineState,
            s.queued.length = BabySide.sensorQueueCapacity → BabySide.PipelineStep s t →
            t.pending = s.pending ∧ t.queued.length + 1 = BabySide.sensorQueueCapacity) :=
  ⟨rfl,
   fun _ _ h => ⟨BabySide.pipeline_conservation h, fun hs => BabySide.pipeline_bound h hs⟩,
   fun _ _ hfull hstep => BabySide.pipeline_full_only_pop hfull hstep⟩

/-- Witness for C5: a concrete one-push run conserves the readings, and a pop
from a concrete full queue frees exactly one slot without touching the
pending reading. -/
theorem claim_C5_queue_no_loss_witness :
    (BabySide.pushedPipeline.delivered ++ BabySide.pushedPipeline.queued
          ++ BabySide.pushedPipeline.pending
        = BabySide.startPipeline.delivered ++ BabySide.startPipeline.queued
          ++ BabySide.startPipeline.pending)
      ∧ (BabySide.poppedPipeline.pending = BabySide.fullPipeline.pending
          ∧ BabySide.poppedPipeline.queued.length + 1 = BabySide.sensorQueueCapacity) :=
  ⟨(claim_C5_queue_no_loss.2.1 BabySide.startPipeline BabySide.pushedPipeline
      (Relation.ReflTransGen.single
        (BabySide.PipelineStep.push BabySide.sampleReading [] [] [] (by decide)))).1,
   claim_C5_queue_no_loss.2.2 BabySide.fullPipeline BabySide.poppedPipeline (by decide)
     (BabySide.PipelineStep.pop BabySide.sampleReading [BabySide.sampleReading]
        BabySide.nineReadings [])⟩

/-- Counterexample to claim C6 as stated: two events spaced exactly 500 ms
apart (1000 and 1500, with no earlier accepted input) satisfy the claim's
"spaced ≥ 500 ms" condition yet produce one accepted event, not two, because
the code requires strictly more than 500 ms. -/
theorem claim_C6_counterexample :
    ((1500 : Int) - 1000 ≥ 500) ∧ countAccepted 0 [1000, 1500] = 1 := by
  decide

/-- Claim C6 (amended): an input event is accepted exactly when strictly more
than 500 ms have elapsed since the last accepted event on that axis; given a
first accepted event, a second event is accepted (two in total) exactly when
it arrives strictly more than 500 ms later, and otherwise only the first is
accepted. -/
theorem claim_C6_debounce (last t1 t2 : Int) (h1 : t1 - last > 500) :
    ((debounce t1 last).fst = true ↔ t1 - last > 500)
      ∧ countAccepted last [t1, t2] = if t2 - t1 > 500 then 2 else 1 := by
  have hd1 : debounce t1 last = (true, t1) := by rw [debounce, if_pos h1]
  constructor
  · rw [hd1]
    simp [h1]
  · by_cases h2 : t2 - t1 > 500
    · have hd2 : debounce t2 t1 = (true, t2) := by rw [debounce, if_pos h2]
      simp [countAccepted, hd1, hd2, h2]
    · have hd2 : debounce t2 t1 = (false, t1) := by rw [debounce, if_neg h2]
      simp [countAccepted, hd1, hd2, h2]

/-- Witness for C6: a first event at 1000 (last input time 0) followed by a
second at 1501, strictly more than 500 ms later. -/
theorem claim_C6_debounce_witness :
    ((debounce 1000 0).fst = true ↔ (1000 : Int) - 0 > 500)
      ∧ countAccepted 0 [1000, 1501] = if (1501 : Int) - 1000 > 500 then 2 else 1 :=
  claim_C6_debounce 0 1000 1501 (by decide)

end BabyMonitoring

